import Mathlib

/-
Verification of the Correlated Ensemble Simulator from the wisdom_crowd
repository (src/wisdom_app.py, src/pages/info.py).

The core function `simulate_collective_accuracy(num_learners, num_simulations,
individual_accuracy, correlation_strength)` builds a boolean grid of learner
outcomes, one column per learner and one row per simulation trial, takes a
strict-majority vote per trial, and returns the mean of the vote sequence
together with the sequence itself.

Shallow embedding choices:
  - Randomness is made explicit: the numpy Bernoulli draws are modelled by a
    function `d : Nat -> Nat -> Bool`, where `d i t` is the outcome of the
    Bernoulli(individual_accuracy) draw made for learner column `i` at trial
    `t` (`true` corresponds to numpy drawing the value 1).  All claims proved
    here are postconditions valid for any outcome of the draws; the predicate
    `ValidDraws` records the only deterministic constraint the Bernoulli
    parameter imposes (p = 0 always draws 0, p = 1 always draws 1).
  - The float arithmetic of the update step is embedded over the reals.  The
    one place where float semantics visibly diverges from real arithmetic is
    `np.sqrt` of a negative argument, which yields NaN; every comparison with
    NaN is false, so `np.clip(NaN,0,1) >= a` is false.  The embedding guards
    the update step with `1 - c^2 < 0` and returns `false` in that case,
    mirroring the NaN propagation exactly.
  - The two run-time failures the source can actually hit are modelled by
    `SimError`: `np.random.choice` raises a ValueError when the probability
    vector `[a, 1-a]` has a negative entry (i.e. a < 0 or a > 1), and the
    column assignment `individual_estimates[:, 0] = ...` raises an IndexError
    when the grid has zero columns (num_learners = 0).  The ValueError fires
    first because Python evaluates the right-hand side before the assignment.
    The source contains no other validation and no InvalidParameter error.
-/

namespace WisdomCrowd

/-- Run-time errors the Python source can raise inside
`simulate_collective_accuracy`: numpy's ValueError from `np.random.choice`
with an invalid probability vector, and the IndexError from assigning to
column 0 of a zero-column grid. -/
inductive SimError where
  | valueError : SimError
  | indexError : SimError
deriving DecidableEq

/-- The learner-outcome grid `individual_estimates`, built column by column
(wisdom_app.py lines 49-57).  `estimate a c d i t` is the boolean outcome of
learner `i` at trial `t`, given individual accuracy `a`, correlation strength
`c` and the explicit Bernoulli draws `d`.  Column 0 is the raw draw; column
`i+1` maps column `i` to a bipolar signal `2*prev - 1`, blends it with a fresh
draw valued in {1,0} as `c * bipolar + sqrt(1 - c^2) * fresh`, clips to [0,1]
and compares with `a`.  When `1 - c^2 < 0` the float sqrt is NaN, the blended
value is NaN and the comparison is false. -/
noncomputable def estimate (a c : ℝ) (d : ℕ → ℕ → Bool) : ℕ → ℕ → Bool
  | 0, t => d 0 t
  | i + 1, t =>
      if 1 - c ^ 2 < 0 then
        false
      else
        decide (a ≤ min (max (c * (2 * (if estimate a c d i t then (1 : ℝ) else 0) - 1) +
          Real.sqrt (1 - c ^ 2) * (if d (i + 1) t then (1 : ℝ) else 0)) 0) 1)

/-- Number of correct learners in trial `t`: the row sum
`np.sum(individual_estimates, axis=1)` over the `L` learner columns
(wisdom_app.py line 60). -/
noncomputable def countCorrect (L : ℕ) (a c : ℝ) (d : ℕ → ℕ → Bool) (t : ℕ) : ℕ :=
  (List.range L).countP fun i => estimate a c d i t

/-- The per-trial majority vote `np.sum(...) >= num_learners // 2 + 1`
(wisdom_app.py line 60). -/
noncomputable def collectiveOutcome (L : ℕ) (a c : ℝ) (d : ℕ → ℕ → Bool) (t : ℕ) : Bool :=
  decide (L / 2 + 1 ≤ countCorrect L a c d t)

/-- The returned outcome sequence `collective_accuracies`, one boolean per
trial index in `[0, S)`. -/
noncomputable def outcomesList (L S : ℕ) (a c : ℝ) (d : ℕ → ℕ → Bool) : List Bool :=
  (List.range S).map fun t => collectiveOutcome L a c d t

/-- Arithmetic mean of a boolean list as computed by `np.mean`: booleans cast
to 0/1, summed, divided by the length (division by zero yields 0 in ℝ, a
benign stand-in for numpy's NaN on the empty list, which no claim touches). -/
noncomputable def listMean (l : List Bool) : ℝ :=
  ((l.map fun b => if b then (1 : ℝ) else 0).sum) / (l.length : ℝ)

/-- The whole call `simulate_collective_accuracy` (wisdom_app.py lines 7-65),
with its two reachable run-time failures made explicit.  Note there is no
parameter validation in the source: the only error paths are numpy's
ValueError on a probability vector with a negative entry (a < 0 or 1 - a < 0)
and the IndexError on indexing column 0 of a zero-column grid; an
out-of-range correlation strength raises nothing. -/
noncomputable def simulate_collective_accuracy (L S : ℕ) (a c : ℝ) (d : ℕ → ℕ → Bool) :
    Except SimError (ℝ × List Bool) :=
  if a < 0 ∨ 1 - a < 0 then .error .valueError
  else if L = 0 then .error .indexError
  else .ok (listMean (outcomesList L S a c d), outcomesList L S a c d)

/-- The only deterministic constraint the Bernoulli parameter places on the
draw outcomes: `np.random.choice([1,0], p=[a, 1-a])` always yields 0 when
a = 0 and always yields 1 when a = 1.  For 0 < a < 1 both outcomes occur. -/
def ValidDraws (a : ℝ) (d : ℕ → ℕ → Bool) : Prop :=
  (a = 0 → ∀ i t, d i t = false) ∧ (a = 1 → ∀ i t, d i t = true)

/-- The caller-side running-average transform
`np.cumsum(collective_accuracies) / np.arange(1, num_simulations + 1)`
(wisdom_app.py line 87), over exact rationals: entry `k` is the count of
`true` among the first `k+1` outcomes divided by `k+1`. -/
def cumulative_accuracies (l : List Bool) : List ℚ :=
  (List.range l.length).map fun k => (((l.take (k + 1)).countP id : ℕ) : ℚ) / (k + 1)

/-- Rounding a rational to 3 decimal places. -/
def round3 (q : ℚ) : ℚ := (round (q * 1000) : ℤ) / 1000

/-! Helper lemmas about the embedded definitions. -/

lemma estimate_zero (a c : ℝ) (d : ℕ → ℕ → Bool) (t : ℕ) :
    estimate a c d 0 t = d 0 t := by
  simp [estimate]

lemma estimate_succ (a c : ℝ) (d : ℕ → ℕ → Bool) (i t : ℕ) (hc : c ^ 2 ≤ 1) :
    estimate a c d (i + 1) t =
      decide (a ≤ min (max (c * (2 * (if estimate a c d i t then (1 : ℝ) else 0) - 1) +
        Real.sqrt (1 - c ^ 2) * (if d (i + 1) t then (1 : ℝ) else 0)) 0) 1) := by
  rw [estimate, if_neg (not_lt.mpr (by linarith))]

lemma estimate_succ_nan (a c : ℝ) (d : ℕ → ℕ → Bool) (i t : ℕ) (hc : 1 < c ^ 2) :
    estimate a c d (i + 1) t = false := by
  rw [estimate, if_pos (by linarith)]

lemma clip_nonneg (x : ℝ) : 0 ≤ min (max x 0) 1 :=
  le_min (le_max_right x 0) zero_le_one

lemma clip_of_nonpos {x : ℝ} (h : x ≤ 0) : min (max x 0) 1 = 0 := by
  rw [max_eq_right h, min_eq_left zero_le_one]

lemma clip_of_one_le {x : ℝ} (h : 1 ≤ x) : min (max x 0) 1 = 1 := by
  rw [max_eq_left (le_trans zero_le_one h), min_eq_right h]

/-! Claim theorems. -/

/-- C2: for every learner index i with 1 ≤ i and every trial t, learner i's
outcome equals the threshold test "clip(c * bipolar(prev) + sqrt(1 - c^2) *
fresh, 0, 1) ≥ a", where prev is learner i-1's outcome mapped to a bipolar
signal (+1 if correct, -1 if incorrect), fresh is the independent
Bernoulli draw valued in {1,0}, and c lies in [-1,1]. -/
theorem learner_update_formula (a c : ℝ) (d : ℕ → ℕ → Bool) (i t : ℕ)
    (hc1 : -1 ≤ c) (hc2 : c ≤ 1) (hi : 1 ≤ i) :
    estimate a c d i t =
      decide (a ≤ min (max (c * (2 * (if estimate a c d (i - 1) t then (1 : ℝ) else 0) - 1) +
        Real.sqrt (1 - c ^ 2) * (if d i t then (1 : ℝ) else 0)) 0) 1) := by
  obtain ⟨j, rfl⟩ : ∃ j, i = j + 1 := ⟨i - 1, (Nat.succ_pred_eq_of_pos hi).symm⟩
  have hsq : c ^ 2 ≤ 1 := by nlinarith
  simpa using estimate_succ a c d j t hsq

/-- Witness for C2: a = 1/2, c = 0, all draws 1, learner 1, trial 0 gives a
correct outcome. -/
theorem learner_update_formula_witness :
    estimate (1/2) 0 (fun _ _ => true) 1 0 = true := by
  rw [learner_update_formula (1/2) 0 (fun _ _ => true) 1 0 (by norm_num) (by norm_num) le_rfl]
  rw [show (1 : ℕ) - 1 = 0 from rfl, estimate_zero]
  norm_num [Real.sqrt_one, max_def, min_def]

/-- C3: the per-trial collective outcome is true iff the number of correct
learners reaches floor(L/2) + 1; in particular for even L a tie of exactly
L/2 correct learners is not a majority. -/
theorem majority_threshold (L : ℕ) (a c : ℝ) (d : ℕ → ℕ → Bool) (t : ℕ) :
    (collectiveOutcome L a c d t = true ↔ L / 2 + 1 ≤ countCorrect L a c d t) ∧
    (L % 2 = 0 → countCorrect L a c d t = L / 2 → collectiveOutcome L a c d t = false) := by
  refine ⟨by simp [collectiveOutcome], fun _ hcnt => ?_⟩
  simp [collectiveOutcome, hcnt]

/-- Witness for C3: two learners, accuracy 1/2, correlation 0, learner 0
correct and learner 1 incorrect — a tie, which is not a majority. -/
theorem majority_threshold_witness :
    collectiveOutcome 2 (1/2) 0 (fun i _ => i == 0) 0 = false := by
  have h0 : estimate (1/2 : ℝ) 0 (fun i _ => i == 0) 0 0 = true := by
    simp [estimate_zero]
  have h1 : estimate (1/2 : ℝ) 0 (fun i _ => i == 0) 1 0 = false := by
    rw [estimate_succ (1/2) 0 (fun i _ => i == 0) 0 0 (by norm_num), h0]
    norm_num [Real.sqrt_one, max_def, min_def]
  have hcnt : countCorrect 2 (1/2 : ℝ) 0 (fun i _ => i == 0) 0 = 1 := by
    simp only [countCorrect, show List.range 2 = [0, 1] from rfl,
      List.countP_cons, List.countP_nil, h0, h1]
    rfl
  exact (majority_threshold 2 (1/2) 0 (fun i _ => i == 0) 0).2 rfl hcnt

/-- C7: with a single learner the loop over remaining learners does not run;
the collective outcome sequence is pointwise the raw learner-0 draw sequence,
for any correlation strength in [-1,1]. -/
theorem single_learner (S : ℕ) (a c : ℝ) (d : ℕ → ℕ → Bool)
    (hc1 : -1 ≤ c) (hc2 : c ≤ 1) :
    (∀ t, collectiveOutcome 1 a c d t = d 0 t) ∧
    outcomesList 1 S a c d = (List.range S).map fun t => d 0 t := by
  have h : ∀ t, collectiveOutcome 1 a c d t = d 0 t := by
    intro t
    have hcnt : countCorrect 1 a c d t = if d 0 t then 1 else 0 := by
      simp only [countCorrect, show List.range 1 = [0] from rfl,
        List.countP_cons, List.countP_nil, estimate_zero, Nat.zero_add]
    cases hd : d 0 t <;> simp [collectiveOutcome, hcnt, hd]
  exact ⟨h, by simp [outcomesList, h]⟩

/-- Witness for C7: one learner, accuracy 1/2, correlation 1, learner 0
correct at trial 0 makes the collective outcome correct. -/
theorem single_learner_witness :
    collectiveOutcome 1 (1/2) 1 (fun _ _ => true) 0 = true := by
  simpa using (single_learner 1 (1/2) 1 (fun _ _ => true) (by norm_num) le_rfl).1 0

lemma listMean_nonneg (l : List Bool) : 0 ≤ listMean l := by
  apply div_nonneg _ (by positivity)
  apply List.sum_nonneg
  intro x hx
  simp only [List.mem_map] at hx
  obtain ⟨b, _, rfl⟩ := hx
  split <;> norm_num

lemma listMean_le_one (l : List Bool) : listMean l ≤ 1 := by
  have hsum : ((l.map fun b => if b then (1 : ℝ) else 0).sum) ≤ (l.length : ℝ) := by
    have h := List.sum_le_card_nsmul (l.map fun b => if b then (1 : ℝ) else 0) 1 ?_
    · simpa [nsmul_eq_mul] using h
    · intro x hx
      simp only [List.mem_map] at hx
      obtain ⟨b, _, rfl⟩ := hx
      split <;> norm_num
  exact div_le_one_of_le hsum (by positivity)

/-- C4: for valid parameters and any outcome of the draws, the call returns
normally; the returned outcome sequence has length exactly S and the returned
scalar is exactly the arithmetic mean of that sequence (its 0/1 sum divided
by its length). -/
theorem result_shape_and_mean (L S : ℕ) (a c : ℝ) (d : ℕ → ℕ → Bool)
    (hL : 1 ≤ L) (hS : 1 ≤ S) (ha0 : 0 ≤ a) (ha1 : a ≤ 1)
    (hc1 : -1 ≤ c) (hc2 : c ≤ 1) :
    simulate_collective_accuracy L S a c d =
      .ok (listMean (outcomesList L S a c d), outcomesList L S a c d) ∧
    (outcomesList L S a c d).length = S ∧
    listMean (outcomesList L S a c d) =
      ((outcomesList L S a c d).map fun b => if b then (1 : ℝ) else 0).sum /
        ((outcomesList L S a c d).length : ℝ) := by
  refine ⟨?_, ?_, rfl⟩
  · rw [simulate_collective_accuracy,
      if_neg (by simp only [not_or, not_lt]; exact ⟨ha0, by linarith⟩), if_neg (by omega)]
  · simp [outcomesList]

/-- Witness for C4 at L = 1, S = 1, a = 1/2, c = 0, all draws 1. -/
theorem result_shape_and_mean_witness :
    (outcomesList 1 1 (1/2) 0 (fun _ _ => true)).length = 1 :=
  (result_shape_and_mean 1 1 (1/2) 0 (fun _ _ => true) le_rfl le_rfl
    (by norm_num) (by norm_num) (by norm_num) (by norm_num)).2.1

/-- C9: whenever the call returns a result, the returned mean lies in the
closed interval [0,1]. -/
theorem mean_in_unit_interval (L S : ℕ) (a c : ℝ) (d : ℕ → ℕ → Bool)
    (m : ℝ) (outs : List Bool)
    (h : simulate_collective_accuracy L S a c d = .ok (m, outs)) :
    0 ≤ m ∧ m ≤ 1 := by
  rw [simulate_collective_accuracy] at h
  split at h
  · exact absurd h (by simp)
  · split at h
    · exact absurd h (by simp)
    · rw [Except.ok.injEq, Prod.mk.injEq] at h
      obtain ⟨hm, -⟩ := h
      rw [← hm]
      exact ⟨listMean_nonneg _, listMean_le_one _⟩

/-- Witness for C9 at L = 1, S = 1, a = 1/2, c = 0, all draws 1. -/
theorem mean_in_unit_interval_witness :
    0 ≤ listMean (outcomesList 1 1 (1/2) 0 (fun _ _ => true)) ∧
    listMean (outcomesList 1 1 (1/2) 0 (fun _ _ => true)) ≤ 1 := by
  apply mean_in_unit_interval 1 1 (1/2) 0 (fun _ _ => true) _
    (outcomesList 1 1 (1/2) 0 (fun _ _ => true))
  rw [simulate_collective_accuracy, if_neg (by norm_num), if_neg (by norm_num)]

lemma estimate_succ_one (a : ℝ) (d : ℕ → ℕ → Bool) (j t : ℕ)
    (ha0 : 0 < a) (ha1 : a ≤ 1) :
    estimate a 1 d (j + 1) t = estimate a 1 d j t := by
  rw [estimate_succ a 1 d j t (by norm_num)]
  have hs : Real.sqrt (1 - (1 : ℝ) ^ 2) = 0 := by norm_num
  cases h : estimate a 1 d j t with
  | false =>
    rw [hs]
    have hb : (1 : ℝ) * (2 * (if (false : Bool) then (1 : ℝ) else 0) - 1) +
        0 * (if d (j + 1) t then (1 : ℝ) else 0) = -1 := by norm_num
    rw [hb, clip_of_nonpos (by norm_num)]
    exact decide_eq_false (not_le.mpr ha0)
  | true =>
    rw [hs]
    have hb : (1 : ℝ) * (2 * (if (true : Bool) then (1 : ℝ) else 0) - 1) +
        0 * (if d (j + 1) t then (1 : ℝ) else 0) = 1 := by norm_num
    rw [hb, clip_of_one_le le_rfl]
    exact decide_eq_true ha1

lemma estimate_succ_neg_one (a : ℝ) (d : ℕ → ℕ → Bool) (j t : ℕ)
    (ha0 : 0 < a) (ha1 : a ≤ 1) :
    estimate a (-1) d (j + 1) t = ! estimate a (-1) d j t := by
  rw [estimate_succ a (-1) d j t (by norm_num)]
  have hs : Real.sqrt (1 - (-1 : ℝ) ^ 2) = 0 := by norm_num
  cases h : estimate a (-1) d j t with
  | false =>
    rw [hs]
    have hb : (-1 : ℝ) * (2 * (if (false : Bool) then (1 : ℝ) else 0) - 1) +
        0 * (if d (j + 1) t then (1 : ℝ) else 0) = 1 := by norm_num
    rw [hb, clip_of_one_le le_rfl]
    simpa using decide_eq_true ha1
  | true =>
    rw [hs]
    have hb : (-1 : ℝ) * (2 * (if (true : Bool) then (1 : ℝ) else 0) - 1) +
        0 * (if d (j + 1) t then (1 : ℝ) else 0) = -1 := by norm_num
    rw [hb, clip_of_nonpos (by norm_num)]
    simpa using decide_eq_false (not_le.mpr ha0)

/-- C5 (amended): with correlation strength exactly 1 and individual accuracy
in (0,1], every learner's outcome in each trial equals learner 0's outcome in
that trial (the whole chain copies learner 0). -/
theorem perfect_positive_correlation (a : ℝ) (d : ℕ → ℕ → Bool) (i t : ℕ)
    (ha0 : 0 < a) (ha1 : a ≤ 1) :
    estimate a 1 d i t = estimate a 1 d 0 t := by
  induction i with
  | zero => rfl
  | succ j ih => rw [estimate_succ_one a d j t ha0 ha1, ih]

/-- Witness for C5 (amended) at a = 1, all draws 1: learner 2 copies
learner 0. -/
theorem perfect_positive_correlation_witness :
    estimate 1 1 (fun _ _ => true) 2 0 = true := by
  rw [perfect_positive_correlation 1 (fun _ _ => true) 2 0 one_pos le_rfl, estimate_zero]

/-- C5 counterexample: at individual accuracy 0 and correlation strength 1
(both inside the declared parameter domains, with draws consistent with
Bernoulli(0)), learner 0 is incorrect in trial 0 while learner 1 is correct:
the clipped blended value 0 passes the threshold test against accuracy 0, so
learner 1 does not copy learner 0. -/
theorem perfect_positive_correlation_cex :
    estimate 0 1 (fun _ _ => false) 0 0 = false ∧
    estimate 0 1 (fun _ _ => false) 1 0 = true := by
  refine ⟨by rw [estimate_zero], ?_⟩
  rw [estimate_succ 0 1 (fun _ _ => false) 0 0 (by norm_num)]
  exact decide_eq_true (clip_nonneg _)

/-- C6 (amended): with correlation strength exactly -1 and individual
accuracy in (0,1], each learner's outcome is the opposite of its
predecessor's; consequently learners at even indices agree with learner 0 and
learners at odd indices are its opposite. -/
theorem perfect_negative_correlation (a : ℝ) (d : ℕ → ℕ → Bool)
    (ha0 : 0 < a) (ha1 : a ≤ 1) :
    (∀ j t, estimate a (-1) d (j + 1) t = ! estimate a (-1) d j t) ∧
    (∀ i t, estimate a (-1) d (2 * i) t = estimate a (-1) d 0 t) ∧
    (∀ i t, estimate a (-1) d (2 * i + 1) t = ! estimate a (-1) d 0 t) := by
  have hstep : ∀ j t, estimate a (-1) d (j + 1) t = ! estimate a (-1) d j t :=
    fun j t => estimate_succ_neg_one a d j t ha0 ha1
  have heven : ∀ i t, estimate a (-1) d (2 * i) t = estimate a (-1) d 0 t := by
    intro i t
    induction i with
    | zero => rfl
    | succ k ih =>
      have h2 : 2 * (k + 1) = 2 * k + 1 + 1 := by ring
      rw [h2, hstep, hstep, Bool.not_not, ih]
  exact ⟨hstep, heven, fun i t => by rw [hstep, heven]⟩

/-- Witness for C6 (amended) at a = 1, all draws 1: learner 1 is the opposite
of learner 0. -/
theorem perfect_negative_correlation_witness :
    estimate 1 (-1) (fun _ _ => true) (0 + 1) 0 = false := by
  rw [(perfect_negative_correlation 1 (fun _ _ => true) one_pos le_rfl).1 0 0,
    estimate_zero]
  rfl

/-- C6 counterexample: at accuracy 1/2 and correlation strength -1, with
learner 0 correct at trial 0, learner 2 is also correct — equal to learner 0
rather than its opposite, so it is not the case that every learner of index
at least 1 is anti-correlated with learner 0. -/
theorem perfect_negative_correlation_cex :
    estimate (1/2) (-1) (fun _ _ => true) 0 0 = true ∧
    estimate (1/2) (-1) (fun _ _ => true) 2 0 = true := by
  have h0 : estimate (1/2 : ℝ) (-1) (fun _ _ => true) 0 0 = true := by
    rw [estimate_zero]
  have h1 : estimate (1/2 : ℝ) (-1) (fun _ _ => true) (0 + 1) 0 = false := by
    rw [estimate_succ_neg_one (1/2 : ℝ) (fun _ _ => true) 0 0 (by norm_num) (by norm_num),
      h0]
    rfl
  have h2 : estimate (1/2 : ℝ) (-1) (fun _ _ => true) (1 + 1) 0 = true := by
    rw [estimate_succ_neg_one (1/2 : ℝ) (fun _ _ => true) 1 0 (by norm_num) (by norm_num),
      show (1 : ℕ) = 0 + 1 from rfl, h1]
    rfl
  exact ⟨h0, h2⟩

lemma round3_eval (q : ℚ) (n : ℤ) (h1 : (n : ℚ) ≤ q * 1000 + 1/2)
    (h2 : q * 1000 + 1/2 < n + 1) :
    round3 q = (n : ℚ) / 1000 := by
  rw [round3, round_eq, show (Int.floor (q * 1000 + 1/2)) = n from Int.floor_eq_iff.mpr ⟨h1, h2⟩]

/-- C8: the caller-side running-average transform applied to the literal
outcome sequence [true, false, true, true] yields [1.0, 0.5, 0.667, 0.75]
when each entry is rounded to 3 decimals. -/
theorem cumulative_mean_example :
    (cumulative_accuracies [true, false, true, true]).map round3 =
      [1, 1/2, 667/1000, 3/4] := by
  have hc : cumulative_accuracies [true, false, true, true] = [1, 1/2, 2/3, 3/4] := by
    norm_num [cumulative_accuracies, List.countP_cons, List.countP_nil,
      show (List.range 4) = [0, 1, 2, 3] from rfl]
  rw [hc, List.map_cons, List.map_cons, List.map_cons, List.map_cons, List.map_nil,
    round3_eval 1 1000 (by norm_num) (by norm_num),
    round3_eval (1/2) 500 (by norm_num) (by norm_num),
    round3_eval (2/3) 667 (by norm_num) (by norm_num),
    round3_eval (3/4) 750 (by norm_num) (by norm_num)]
  norm_num

/-- C10: at individual accuracy 0 with a valid correlation strength and
draws consistent with Bernoulli(0), learner 0 is incorrect in every trial
while every later learner is correct (the clipped blended value is ≥ 0 and so
passes the threshold test against accuracy 0); for at least 3 learners every
trial's collective outcome is correct and the mean is exactly 1. -/
theorem zero_accuracy_case (L S : ℕ) (c : ℝ) (d : ℕ → ℕ → Bool)
    (hc1 : -1 ≤ c) (hc2 : c ≤ 1) (hd : ValidDraws 0 d) (hL : 2 ≤ L) :
    (∀ t, estimate 0 c d 0 t = false) ∧
    (∀ i t, 1 ≤ i → estimate 0 c d i t = true) ∧
    (3 ≤ L → ∀ t, collectiveOutcome L 0 c d t = true) ∧
    (3 ≤ L → 1 ≤ S → listMean (outcomesList L S 0 c d) = 1) := by
  have hzero : ∀ t, estimate 0 c d 0 t = false := by
    intro t
    rw [estimate_zero]
    exact hd.1 rfl 0 t
  have hpos : ∀ i t, 1 ≤ i → estimate 0 c d i t = true := by
    intro i t hi
    obtain ⟨j, rfl⟩ : ∃ j, i = j + 1 := ⟨i - 1, (Nat.succ_pred_eq_of_pos hi).symm⟩
    rw [estimate_succ 0 c d j t (by nlinarith)]
    exact decide_eq_true (clip_nonneg _)
  have hcnt : ∀ t, ∀ n : ℕ, 1 ≤ n →
      (List.range n).countP (fun i => estimate 0 c d i t) = n - 1 := by
    intro t n
    induction n with
    | zero => intro h; exact absurd h (by omega)
    | succ m ih =>
      intro _
      simp only [List.range_succ, List.countP_append, List.countP_cons, List.countP_nil]
      rcases Nat.eq_zero_or_pos m with hm | hm
      · subst hm
        simp [hzero t]
      · rw [ih hm, hpos m t hm]
        simp only [eq_self_iff_true, if_true]
        omega
  have hcoll : 3 ≤ L → ∀ t, collectiveOutcome L 0 c d t = true := by
    intro h3 t
    have h := hcnt t L (by omega)
    rw [collectiveOutcome, countCorrect, h]
    exact decide_eq_true (by omega)
  refine ⟨hzero, hpos, hcoll, fun h3 hS => ?_⟩
  have hrep : outcomesList L S 0 c d = List.replicate S true := by
    rw [outcomesList]
    rw [List.map_congr_left fun t _ => hcoll h3 t]
    simp
  rw [hrep, listMean]
  simp only [List.map_replicate, eq_self_iff_true, if_true, List.sum_replicate,
    List.length_replicate, nsmul_eq_mul, mul_one]
  exact div_self (Nat.cast_ne_zero.mpr (by omega))

/-- Witness for C10 at L = 3, S = 1, c = 0, all draws 0 (the only draws a
Bernoulli(0) source can produce). -/
theorem zero_accuracy_case_witness :
    listMean (outcomesList 3 1 0 0 (fun _ _ => false)) = 1 :=
  (zero_accuracy_case 3 1 0 (fun _ _ => false) (by norm_num) (by norm_num)
    ⟨fun _ _ _ => rfl, fun h => absurd h (by norm_num)⟩
    (by norm_num)).2.2.2 (by norm_num) le_rfl

/-- C1 (amended): the source performs no upfront parameter validation and
defines no InvalidParameter error.  An out-of-range correlation strength does
not make the call fail at all — the call returns normally whenever the other
inputs are in range, for any c.  An accuracy outside [0,1] surfaces only as
numpy's generic ValueError raised inside np.random.choice, and
num_learners = 0 surfaces only as an IndexError from the column-0 assignment
(both after the grid has already been allocated). -/
theorem no_validation (L S : ℕ) (a c : ℝ) (d : ℕ → ℕ → Bool) :
    (0 ≤ a → a ≤ 1 → 1 ≤ L →
      ∃ r, simulate_collective_accuracy L S a c d = .ok r) ∧
    ((a < 0 ∨ 1 < a) →
      simulate_collective_accuracy L S a c d = .error .valueError) ∧
    (L = 0 → 0 ≤ a → a ≤ 1 →
      simulate_collective_accuracy L S a c d = .error .indexError) := by
  refine ⟨fun ha0 ha1 hL => ?_, fun ha => ?_, fun hL ha0 ha1 => ?_⟩
  · exact ⟨_, by
      rw [simulate_collective_accuracy,
        if_neg (by simp only [not_or, not_lt]; exact ⟨ha0, by linarith⟩), if_neg (by omega)]⟩
  · rw [simulate_collective_accuracy,
      if_pos (by rcases ha with h | h; exacts [Or.inl h, Or.inr (by linarith)])]
  · rw [simulate_collective_accuracy,
      if_neg (by simp only [not_or, not_lt]; exact ⟨ha0, by linarith⟩), if_pos hL]

/-- Witness for C1 (amended) at the three inputs the claim names:
correlation strength -2 returns normally, accuracy 3/2 raises ValueError,
and 0 learners raises IndexError. -/
theorem no_validation_witness :
    (∃ r, simulate_collective_accuracy 3 2 (1/2) (-2) (fun _ _ => true) = .ok r) ∧
    simulate_collective_accuracy 3 2 (3/2) 0 (fun _ _ => true) = .error .valueError ∧
    simulate_collective_accuracy 0 2 (1/2) 0 (fun _ _ => true) = .error .indexError :=
  ⟨(no_validation 3 2 (1/2) (-2) (fun _ _ => true)).1 (by norm_num) (by norm_num)
      (by norm_num),
    (no_validation 3 2 (3/2) 0 (fun _ _ => true)).2.1 (Or.inr (by norm_num)),
    (no_validation 0 2 (1/2) 0 (fun _ _ => true)).2.2 rfl (by norm_num) (by norm_num)⟩

/-- C1 counterexample: the call with num_learners = 3, num_simulations = 2,
individual_accuracy = 1/2 and correlation_strength = -2 (outside [-1,1]) does
not fail with any error: it returns normally with mean 0 and outcome sequence
[false, false], because sqrt(1 - (-2)^2) is NaN, every comparison against the
NaN blended value is false, so learners 1 and 2 are incorrect in every trial
and the majority vote never passes. -/
theorem no_validation_cex :
    simulate_collective_accuracy 3 2 (1/2) (-2) (fun _ _ => true) =
      .ok (0, [false, false]) := by
  have h0 : ∀ t, estimate (1/2 : ℝ) (-2) (fun _ _ => true) 0 t = true := fun t => by
    rw [estimate_zero]
  have hnan : ∀ i t, estimate (1/2 : ℝ) (-2) (fun _ _ => true) (i + 1) t = false :=
    fun i t => estimate_succ_nan (1/2) (-2) (fun _ _ => true) i t (by norm_num)
  have hcoll : ∀ t, collectiveOutcome 3 (1/2 : ℝ) (-2) (fun _ _ => true) t = false := by
    intro t
    have e1 : estimate (1/2 : ℝ) (-2) (fun _ _ => true) 1 t = false := hnan 0 t
    have e2 : estimate (1/2 : ℝ) (-2) (fun _ _ => true) 2 t = false := hnan 1 t
    have hcnt : countCorrect 3 (1/2 : ℝ) (-2) (fun _ _ => true) t = 1 := by
      simp only [countCorrect, show List.range 3 = [0, 1, 2] from rfl,
        List.countP_cons, List.countP_nil, h0 t, e1, e2]
      rfl
    rw [collectiveOutcome, hcnt]
    rfl
  have houts : outcomesList 3 2 (1/2 : ℝ) (-2) (fun _ _ => true) = [false, false] := by
    simp only [outcomesList, show List.range 2 = [0, 1] from rfl,
      List.map_cons, List.map_nil, hcoll 0, hcoll 1]
  rw [simulate_collective_accuracy, if_neg (by norm_num), if_neg (by norm_num), houts]
  norm_num [listMean]

end WisdomCrowd
